import Mathlib

/-!
Verification of the custom per-instance dynamic-library loader.

The development shallowly embeds the code of src/find_shared_function.cpp
(the extension-load hook `_PyImport_FindSharedFuncptr` and the process-wide
registry `loaded`), src/main.cpp (the `PythonAPI` constructor that builds a
private library tree and binds the hook cell) and src/python_runner.cpp
(the `run` entry point guarded by the GIL).

The loader library itself (`loader.h`: `CustomLibrary`, `SystemLibrary`,
chain resolution, `load`, `sym`) is declared but not present in the sources;
those parts are modelled from the specification, as marked on each
definition.
-/

namespace CustomLoader

/-- A symbol address.  Addresses carry no structure the loader inspects;
we model them as natural numbers. -/
abbrev Addr := Nat

/-- A symbol table: the exported symbols of one library, as an association
list from symbol name to address.  Modelled from the spec: a LibraryHandle
exposes symbol lookup by name giving an optional address. -/
abbrev SymTable := List (String × Addr)

/-- Look a name up in a symbol table; the first matching entry wins. -/
def lookupSym (t : SymTable) (n : String) : Option Addr :=
  (t.find? (fun p => p.1 == n)).map (fun p => p.2)

/-- Modelled from the spec: a loadable object on disk declares its named
imports and its named exports. -/
structure ObjectFile where
  imports : List String
  exports : SymTable
deriving DecidableEq, Repr

/-- A filesystem: association of paths to loadable objects. -/
abbrev Fs := List (String × ObjectFile)

/-- Open the object at a path; absence models the NotFound failure of
CustomLibrary::create. -/
def fsLookup (fs : Fs) (path : String) : Option ObjectFile :=
  (fs.find? (fun p => p.1 == path)).map (fun p => p.2)

/-- Modelled from the spec: resolution protocol of section 4.3.  To resolve
a symbol, iterate the chain in insertion order and return the first member
that answers; the chain members answer from their own symbol tables. -/
def resolveInChain (chain : List SymTable) (n : String) : Option Addr :=
  match chain with
  | [] => none
  | t :: rest =>
    match lookupSym t n with
    | some a => some a
    | none => resolveInChain rest n

/-- Modelled from the spec: a CustomLibrary between create and load.  It
holds the opened object and the search chain configured so far. -/
structure UnloadedLib where
  path : String
  obj : ObjectFile
  chain : List SymTable
deriving DecidableEq, Repr

/-- Modelled from the spec: CustomLibrary::create opens the object without
mapping or linking; the chain starts empty. -/
def UnloadedLib.create (path : String) (obj : ObjectFile) : UnloadedLib :=
  { path := path, obj := obj, chain := [] }

/-- Modelled from the spec: add_search_library appends a handle to the
chain (insertion order is resolution priority). -/
def UnloadedLib.add_search_library (l : UnloadedLib) (t : SymTable) : UnloadedLib :=
  { l with chain := l.chain ++ [t] }

/-- A load failure: LinkError carries the missing symbol and the requesting
path. -/
inductive LoadError where
  | linkError (symbol : String) (requester : String)
deriving DecidableEq, Repr

/-- A loaded CustomLibrary: its own activated exports and the chain it was
linked against.  Kept in the registry after a successful extension load. -/
structure PrivLib where
  path : String
  exports : SymTable
  chain : List SymTable
deriving DecidableEq, Repr

/-- Modelled from the spec: sym answers from the own exports of this
library only; absence is not an error. -/
def PrivLib.sym (l : PrivLib) (n : String) : Option Addr :=
  lookupSym l.exports n

/-- The first import of the object that the chain cannot resolve, if any. -/
def firstUnresolved (chain : List SymTable) (imports : List String) : Option String :=
  imports.find? (fun n => (resolveInChain chain n).isNone)

/-- Modelled from the spec: load resolves every undefined import through
the chain; if some import is unresolved it fails with LinkError naming the
first unresolved import and the requesting path, and nothing is activated;
on success all exports become active. -/
def UnloadedLib.load (l : UnloadedLib) : Except LoadError PrivLib :=
  match firstUnresolved l.chain l.obj.imports with
  | some n => .error (.linkError n l.path)
  | none => .ok { path := l.path, exports := l.obj.exports, chain := l.chain }

/-- A failure of the hook entry point.  notFound models a create failure;
linkError is propagated from load; badOptionalAccess models the C++
exception raised by calling value() on the empty optional returned by sym
when the derived entry-point symbol is absent (line 31 of
find_shared_function.cpp). -/
inductive HookError where
  | notFound (path : String)
  | linkError (symbol : String) (requester : String)
  | badOptionalAccess
deriving DecidableEq, Repr

/-- The mutable state of find_shared_function.cpp: the extern cell
the_python_library (holding the currently bound instance library, queried
through its exports) and the leaked registry vector loaded. -/
structure LoaderState where
  the_python_library : SymTable
  loaded : List PrivLib
deriving DecidableEq, Repr

/-- Binding the hook cell to an instance library: main.cpp obtains the cell
address via sym and writes the instance python library through it
(main.cpp lines 20 to 21). -/
def bindInstance (st : LoaderState) (t : SymTable) : LoaderState :=
  { st with the_python_library := t }

/-- The library built by the hook before load runs: create the object at
pathname, then append the global table and the currently bound instance
library, in that order (find_shared_function.cpp lines 26 to 28). -/
def hookLib (g : SymTable) (st : LoaderState) (pathname : String)
    (obj : ObjectFile) : UnloadedLib :=
  ((UnloadedLib.create pathname obj).add_search_library g).add_search_library
    st.the_python_library

/-- Embedding of _PyImport_FindSharedFuncptr (find_shared_function.cpp
lines 20 to 34).  The FILE* fp argument is taken but, as in the source,
never read.  Returns the outcome together with the loader state after the
call; on every failure path the emplace_back on the registry never runs, so
the state is returned unchanged. -/
def findSharedFuncptr (fs : Fs) (g : SymTable) (pfx shortname pathname : String)
    (fp : Nat) (st : LoaderState) : Except HookError Addr × LoaderState :=
  match fsLookup fs pathname with
  | none => (.error (.notFound pathname), st)
  | some obj =>
    match (hookLib g st pathname obj).load with
    | .error (.linkError s r) => (.error (.linkError s r), st)
    | .ok lib =>
      let init_name := pfx ++ "_" ++ shortname
      match lib.sym init_name with
      | none => (.error .badOptionalAccess, st)
      | some result => (.ok result, { st with loaded := st.loaded ++ [lib] })

/-- The search chain that the PythonAPI constructor gives the hosted
python library: the instance shim library first, then the global table
(main.cpp lines 16 to 17). -/
def pythonApiPythonChain (fsf g : SymTable) : List SymTable := [fsf, g]

/-- The search chain that the PythonAPI constructor gives the runner
library: the instance python library first, then the global table
(main.cpp lines 24 to 25). -/
def pythonApiRunnerChain (py g : SymTable) : List SymTable := [py, g]

/-- The search chain that the PythonAPI constructor gives the shim library:
only the global table (main.cpp line 12). -/
def pythonApiShimChain (g : SymTable) : List SymTable := [g]

/-- An event on the execution lock of one runtime instance. -/
inductive GilEvent where
  | acquire
  | release
deriving DecidableEq, Repr

/-- Modelled from the spec: the scoped lock guard of python_runner.cpp
line 28.  Constructing the guard acquires the instance execution lock;
leaving the scope releases it on both the normal exit and the failing exit,
as the C++ scope guard destructor runs during unwinding as well.  The
result of the body is returned alongside the event trace of the guard. -/
def gilScopedAcquire (body : Except String Unit) :
    List GilEvent × Except String Unit :=
  match body with
  | .ok u => ([.acquire, .release], .ok u)
  | .error e => ([.acquire, .release], .error e)

/-- Embedding of run (python_runner.cpp lines 27 to 30): execute one unit
of work under the instance execution lock.  pyExec stands for the hosted
runtime executing the source text, an external collaborator that either
succeeds or fails with an error. -/
def run (pyExec : String → Except String Unit) (code : String) :
    List GilEvent × Except String Unit :=
  gilScopedAcquire (pyExec code)

/-- One RuntimeInstance as built by the PythonAPI constructor: the identity
of its private shim-library copy and of its private python-library copy. -/
structure PyInstance where
  shimId : Nat
  pythonId : Nat
deriving DecidableEq, Repr

/-- The process state for instance construction.  Modelled from the spec:
two PrivateLibrary instances created from the same path have fully disjoint
data segments, so every created shim copy owns its own the_python_library
cell; cells associates each shim-copy identity with the instance library
currently written in its cell. -/
structure World where
  nextId : Nat
  cells : List (Nat × Option Nat)
deriving DecidableEq, Repr

/-- Embedding of the PythonAPI constructor (main.cpp lines 9 to 27): create
a fresh shim-library copy, a fresh python-library copy and a fresh runner
copy, and write the python copy into the cell of this shim copy, obtained
through sym on this very copy (lines 20 to 21). -/
def mkPythonAPI (w : World) : PyInstance × World :=
  let shimId := w.nextId
  let pythonId := w.nextId + 1
  (⟨shimId, pythonId⟩,
    { nextId := w.nextId + 3,
      cells := w.cells ++ [(shimId, some pythonId)] })

/-- Write a value through the the_python_library cell of one shim copy. -/
def writeCell (w : World) (shimId : Nat) (v : Nat) : World :=
  { w with
    cells := w.cells.map (fun p => if p.1 == shimId then (p.1, some v) else p) }

/-- Read the the_python_library cell of one shim copy. -/
def readCell (w : World) (shimId : Nat) : Option (Option Nat) :=
  (w.cells.find? (fun p => p.1 == shimId)).map (fun p => p.2)

/-! ### Concrete fixtures for witnesses and counterexamples -/

/-- An empty loader state: no instance bound, empty registry. -/
def st0 : LoaderState := { the_python_library := [], loaded := [] }

/-- A filesystem with one object at path p exporting mod_ext. -/
def fs1 : Fs := [("p", { imports := [], exports := [("mod_ext", 42)] })]

/-- A filesystem with one object at path p exporting only mod_extra. -/
def fs3 : Fs := [("p", { imports := [], exports := [("mod_extra", 7)] })]

/-- A filesystem with one object at path q importing symA and exporting
nothing. -/
def fs4 : Fs := [("q", { imports := ["symA"], exports := [] })]

/-- A loader state whose registry already holds one library. -/
def st5 : LoaderState :=
  { the_python_library := [],
    loaded := [{ path := "old", exports := [("x", 1)], chain := [] }] }

/-! ### Helper lemmas -/

/-- A successful load activates exactly the exports of the opened object and
keeps the configured chain and path. -/
theorem load_ok_fields (l : UnloadedLib) (p : PrivLib) (h : l.load = .ok p) :
    p.path = l.path ∧ p.exports = l.obj.exports ∧ p.chain = l.chain := by
  unfold UnloadedLib.load at h
  cases hfu : firstUnresolved l.chain l.obj.imports with
  | some n => rw [hfu] at h; exact Except.noConfusion h
  | none =>
    rw [hfu] at h
    injection h with h
    subst h
    exact ⟨rfl, rfl, rfl⟩

/-- Case analysis on one hook call: either it fails and returns the state
unchanged, or it succeeds, appends exactly one library to the registry and
returns the address that library exports under the derived name. -/
theorem findShared_cases (fs : Fs) (g : SymTable) (pfx shortname pathname : String)
    (fp : Nat) (st : LoaderState) :
    (∃ e, findSharedFuncptr fs g pfx shortname pathname fp st = (.error e, st)) ∨
    (∃ a lib, findSharedFuncptr fs g pfx shortname pathname fp st
        = (.ok a, { st with loaded := st.loaded ++ [lib] })
      ∧ lib.sym (pfx ++ "_" ++ shortname) = some a) := by
  unfold findSharedFuncptr
  split
  · exact .inl ⟨_, rfl⟩
  · split
    · exact .inl ⟨_, rfl⟩
    next lib hload =>
      dsimp only
      split
      next hsym => exact .inl ⟨_, rfl⟩
      next a hsym => exact .inr ⟨a, lib, rfl, hsym⟩

/-! ### Claim theorems -/

/-- Claim C1: every successful call of the hook returns the address of the
symbol named pfx plus underscore plus shortname among the exports of the
library freshly created from pathname and loaded during the call. -/
theorem c1_returns_entry_export (fs : Fs) (g : SymTable)
    (pfx shortname pathname : String) (fp : Nat) (st : LoaderState) (addr : Addr)
    (h : (findSharedFuncptr fs g pfx shortname pathname fp st).1 = .ok addr) :
    ∃ obj, fsLookup fs pathname = some obj ∧
      lookupSym obj.exports (pfx ++ "_" ++ shortname) = some addr := by
  unfold findSharedFuncptr at h
  split at h
  · exact Except.noConfusion h
  next obj hfs =>
    split at h
    · exact Except.noConfusion h
    next lib hload =>
      dsimp only at h
      split at h
      next hsym => exact Except.noConfusion h
      next a hsym =>
        injection h with h
        subst h
        refine ⟨obj, hfs, ?_⟩
        have hexp : lib.exports = obj.exports := (load_ok_fields _ _ hload).2.1
        unfold PrivLib.sym at hsym
        rw [hexp] at hsym
        exact hsym

/-- Claim C1 witness: against an object at path p exporting mod_ext at
address 42, the call with name parts mod and ext returns an address
that is the export named mod_ext of that object. -/
theorem c1_witness :
    ∃ obj, fsLookup fs1 "p" = some obj ∧
      lookupSym obj.exports ("mod" ++ "_" ++ "ext") = some 42 :=
  c1_returns_entry_export fs1 [] "mod" "ext" "p" 0 st0 42 rfl

/-- Claim C2: the chain of the library the hook builds consists of exactly
two members appended before load runs: the global table first and the
currently bound instance library second. -/
theorem c2_hook_chain_order (g : SymTable) (st : LoaderState) (pathname : String)
    (obj : ObjectFile) :
    (hookLib g st pathname obj).chain = [g, st.the_python_library] := rfl

/-- Claim C7: run acquires the instance execution lock on entry and
releases it on every exit path, on success as well as when executing the
source fails, and forwards the outcome of the execution unchanged. -/
theorem c7_lock_acquired_released (pyExec : String → Except String Unit)
    (code : String) :
    (run pyExec code).1.head? = some GilEvent.acquire ∧
    (run pyExec code).1.getLast? = some GilEvent.release ∧
    (run pyExec code).2 = pyExec code := by
  cases h : pyExec code <;> simp [run, gilScopedAcquire, h]

/-- Claim C10: the FILE pointer argument has no effect on the hook; two
calls differing only in it are equal as state transformers. -/
theorem c10_fp_has_no_effect (fs : Fs) (g : SymTable)
    (pfx shortname pathname : String) (st : LoaderState) (fp1 fp2 : Nat) :
    findSharedFuncptr fs g pfx shortname pathname fp1 st
      = findSharedFuncptr fs g pfx shortname pathname fp2 st := rfl

/-- Claim C3 counterexample: against an object at path p exporting only
mod_extra, the call with name parts mod and ext fails, but the
failure is the bad-optional-access error raised by value() on the empty
optional, which is a different value from a LinkError carrying the derived
symbol name mod_ext, so the claim that the call fails with a LinkError
naming mod_ext and never with any other kind of failure is false. -/
theorem c3_counterexample :
    findSharedFuncptr fs3 [] "mod" "ext" "p" 0 st0
      = (Except.error HookError.badOptionalAccess, st0) ∧
    HookError.badOptionalAccess ≠ HookError.linkError "mod_ext" "p" :=
  ⟨rfl, by intro h; exact HookError.noConfusion h⟩

/-- Claim C3 amended: for every call of the hook where the object is found,
every import of the object resolves through the chain consisting of the
global table and the currently bound instance library, and the derived
entry-point name is absent from the exports of the object, the call fails
with the bad-optional-access error from value() on the empty optional
returned by sym, carrying no symbol name, and the loader state is returned
unchanged. -/
theorem c3_absent_entry_fails_bad_optional (fs : Fs) (g : SymTable)
    (pfx shortname pathname : String) (fp : Nat) (st : LoaderState)
    (obj : ObjectFile)
    (hfs : fsLookup fs pathname = some obj)
    (hres : firstUnresolved [g, st.the_python_library] obj.imports = none)
    (habsent : lookupSym obj.exports (pfx ++ "_" ++ shortname) = none) :
    findSharedFuncptr fs g pfx shortname pathname fp st
      = (.error .badOptionalAccess, st) := by
  unfold findSharedFuncptr
  rw [hfs]
  dsimp only
  have hl : hookLib g st pathname obj
      = ⟨pathname, obj, [g, st.the_python_library]⟩ := rfl
  rw [hl]
  unfold UnloadedLib.load
  dsimp only
  rw [hres]
  dsimp only
  unfold PrivLib.sym
  dsimp only
  rw [habsent]

/-- Claim C3 amended witness: the concrete failing call of the
counterexample, obtained through the amended theorem. -/
theorem c3_amended_witness :
    findSharedFuncptr fs3 [] "mod" "ext" "p" 0 st0
      = (.error .badOptionalAccess, st0) :=
  c3_absent_entry_fails_bad_optional fs3 [] "mod" "ext" "p" 0 st0
    { imports := [], exports := [("mod_extra", 7)] } rfl rfl rfl

/-- Claim C4: the hook reads the current-instance binding at call time.
After binding A and then binding B, the bound instance library is B, and
an imported symbol that only A defines, while neither the global table nor
B defines it, makes the load of the extension fail with a LinkError naming
that symbol, so it is not found through the chain of the superseded
binding A. -/
theorem c4_binding_read_at_call_time (fs : Fs) (g : SymTable)
    (pfx shortname pathname : String) (fp : Nat) (st : LoaderState)
    (A B : SymTable) (s : String) (a : Addr) (obj : ObjectFile)
    (hfs : fsLookup fs pathname = some obj)
    (himp : obj.imports = [s])
    (hA : lookupSym A s = some a)
    (hg : lookupSym g s = none)
    (hB : lookupSym B s = none) :
    (bindInstance (bindInstance st A) B).the_python_library = B ∧
    findSharedFuncptr fs g pfx shortname pathname fp
        (bindInstance (bindInstance st A) B)
      = (.error (.linkError s pathname), bindInstance (bindInstance st A) B) := by
  refine ⟨rfl, ?_⟩
  unfold findSharedFuncptr
  rw [hfs]
  dsimp only
  have hl : hookLib g (bindInstance (bindInstance st A) B) pathname obj
      = ⟨pathname, obj, [g, B]⟩ := rfl
  rw [hl]
  unfold UnloadedLib.load
  dsimp only
  rw [himp]
  have hfu : firstUnresolved [g, B] [s] = some s := by
    simp [firstUnresolved, resolveInChain, hg, hB]
  rw [hfu]

/-- Claim C4 witness: with symA defined only in the superseded binding, the
call after rebinding fails with a LinkError naming symA. -/
theorem c4_witness :
    (bindInstance (bindInstance st0 [("symA", 5)]) []).the_python_library = [] ∧
    findSharedFuncptr fs4 [] "mod" "ext" "q" 0
        (bindInstance (bindInstance st0 [("symA", 5)]) [])
      = (.error (.linkError "symA" "q"),
          bindInstance (bindInstance st0 [("symA", 5)]) []) :=
  c4_binding_read_at_call_time fs4 [] "mod" "ext" "q" 0 st0 [("symA", 5)] []
    "symA" 5 { imports := ["symA"], exports := [] } rfl rfl rfl rfl rfl

/-- Claim C5: every library already in the registry stays in it across
every operation of the loader, the registry is append-only, and rebinding
the instance cell leaves the registry untouched; no operation removes or
destructs a registered library. -/
theorem c5_registry_append_only (fs : Fs) (g : SymTable)
    (pfx shortname pathname : String) (fp : Nat) (st : LoaderState)
    (t : SymTable) (lib : PrivLib) (hmem : lib ∈ st.loaded) :
    (bindInstance st t).loaded = st.loaded ∧
    lib ∈ (findSharedFuncptr fs g pfx shortname pathname fp st).2.loaded ∧
    ∃ tail, (findSharedFuncptr fs g pfx shortname pathname fp st).2.loaded
      = st.loaded ++ tail := by
  refine ⟨rfl, ?_, ?_⟩
  · rcases findShared_cases fs g pfx shortname pathname fp st with
      ⟨e, h⟩ | ⟨a, l, h, hsym⟩
    · rw [h]; exact hmem
    · rw [h]; exact List.mem_append_left _ hmem
  · rcases findShared_cases fs g pfx shortname pathname fp st with
      ⟨e, h⟩ | ⟨a, l, h, hsym⟩
    · exact ⟨[], by rw [h, List.append_nil]⟩
    · exact ⟨[l], by rw [h]⟩

/-- Claim C5 witness: a registry holding one library keeps it across a
bind and across a hook call. -/
theorem c5_witness :
    (bindInstance st5 []).loaded = st5.loaded ∧
    ({ path := "old", exports := [("x", 1)], chain := [] } : PrivLib)
      ∈ (findSharedFuncptr fs1 [] "mod" "ext" "p" 0 st5).2.loaded ∧
    ∃ tail, (findSharedFuncptr fs1 [] "mod" "ext" "p" 0 st5).2.loaded
      = st5.loaded ++ tail :=
  c5_registry_append_only fs1 [] "mod" "ext" "p" 0 st5 []
    { path := "old", exports := [("x", 1)], chain := [] }
    (List.mem_cons_self _ _)

/-- Claim C8: the hook registers the new library only after both load and
the entry-point lookup have succeeded.  Every failing call returns the
loader state unchanged, and every successful call appends exactly one
library, whose derived entry-point export is the returned address. -/
theorem c8_register_only_after_success (fs : Fs) (g : SymTable)
    (pfx shortname pathname : String) (fp : Nat) (st : LoaderState) :
    (∀ e, (findSharedFuncptr fs g pfx shortname pathname fp st).1 = .error e →
      (findSharedFuncptr fs g pfx shortname pathname fp st).2 = st) ∧
    (∀ a, (findSharedFuncptr fs g pfx shortname pathname fp st).1 = .ok a →
      ∃ lib, (findSharedFuncptr fs g pfx shortname pathname fp st).2.loaded
          = st.loaded ++ [lib] ∧ lib.sym (pfx ++ "_" ++ shortname) = some a) := by
  rcases findShared_cases fs g pfx shortname pathname fp st with
    ⟨e, h⟩ | ⟨a, l, h, hsym⟩
  · constructor
    · intro e2 he
      rw [h]
    · intro a ha
      rw [h] at ha
      exact Except.noConfusion ha
  · constructor
    · intro e he
      rw [h] at he
      exact Except.noConfusion he
    · intro a2 ha
      rw [h] at ha
      injection ha with ha
      subst ha
      rw [h]
      exact ⟨l, rfl, hsym⟩

/-- Claim C8 witness: the concrete failing call against an object without
the derived entry point leaves the registry state unchanged. -/
theorem c8_witness :
    (findSharedFuncptr fs3 [] "mod" "ext" "p" 0 st0).2 = st0 :=
  (c8_register_only_after_success fs3 [] "mod" "ext" "p" 0 st0).1
    HookError.badOptionalAccess rfl

/-- Claim C6 counterexample: an extension loaded through the hook has the
global table ahead of the instance library in its chain, so the symbol dup,
defined by the global table at address 1 and by the bound instance library
at address 2, resolves through that chain to the global address 1 and not
to the sibling address 2; hence the claim that every member of a private
tree, including hook-loaded extensions, lists siblings ahead of the global
table and always resolves such symbols to the sibling definition is false. -/
theorem c6_counterexample :
    (hookLib [("dup", 1)]
        { the_python_library := [("dup", 2)], loaded := [] } "p"
        { imports := [], exports := [] }).chain
      = [[("dup", 1)], [("dup", 2)]] ∧
    resolveInChain (hookLib [("dup", 1)]
        { the_python_library := [("dup", 2)], loaded := [] } "p"
        { imports := [], exports := [] }).chain "dup" = some 1 ∧
    (some 1 : Option Addr) ≠ some 2 :=
  ⟨rfl, rfl, by decide⟩

/-- Claim C6 amended: the tree members built by the PythonAPI constructor
list the sibling ahead of the global table, so a symbol defined by both
resolves to the sibling definition there; but an extension loaded through
the hook has the global table ahead of the bound instance library, so a
symbol defined by both resolves to the global definition in its chain. -/
theorem c6_sibling_order_in_tree_not_in_hook (g sib : SymTable) (s : String)
    (a ga : Addr) (L : List PrivLib) (pathname : String) (obj : ObjectFile)
    (hsib : lookupSym sib s = some a)
    (hg : lookupSym g s = some ga) :
    resolveInChain (pythonApiPythonChain sib g) s = some a ∧
    resolveInChain (pythonApiRunnerChain sib g) s = some a ∧
    resolveInChain
        (hookLib g { the_python_library := sib, loaded := L } pathname obj).chain s
      = some ga := by
  refine ⟨?_, ?_, ?_⟩ <;>
    simp [pythonApiPythonChain, pythonApiRunnerChain, hookLib,
      UnloadedLib.create, UnloadedLib.add_search_library, resolveInChain,
      hsib, hg]

/-- Claim C6 amended witness: with dup defined globally at 1 and in the
sibling at 2, the tree chains resolve dup to 2 while the hook chain
resolves it to 1. -/
theorem c6_amended_witness :
    resolveInChain (pythonApiPythonChain [("dup", 2)] [("dup", 1)]) "dup"
      = some 2 ∧
    resolveInChain (pythonApiRunnerChain [("dup", 2)] [("dup", 1)]) "dup"
      = some 2 ∧
    resolveInChain
        (hookLib [("dup", 1)]
          { the_python_library := [("dup", 2)], loaded := [] } "p"
          { imports := [], exports := [] }).chain "dup"
      = some 1 :=
  c6_sibling_order_in_tree_not_in_hook [("dup", 1)] [("dup", 2)] "dup" 2 1 []
    "p" { imports := [], exports := [] } rfl rfl

/-- Finding a key skips every earlier entry carrying a different key. -/
theorem find?_key_append (cells more : List (Nat × Option Nat)) (k : Nat)
    (h : ∀ p ∈ cells, p.1 ≠ k) :
    (cells ++ more).find? (fun p => p.1 == k)
      = more.find? (fun p => p.1 == k) := by
  induction cells with
  | nil => rfl
  | cons c cs ih =>
    have hc : (c.1 == k) = false := by
      simp only [beq_eq_false_iff_ne]
      exact h c (List.mem_cons_self _ _)
    rw [List.cons_append, List.find?_cons, hc]
    exact ih (fun p hp => h p (List.mem_cons_of_mem _ hp))

/-- Writing through the cell of one key leaves the lookup of every other
key unchanged. -/
theorem find?_key_write (cells : List (Nat × Option Nat)) (k1 k2 v : Nat)
    (hne : k1 ≠ k2) :
    (cells.map (fun p => if p.1 == k1 then (p.1, some v) else p)).find?
        (fun p => p.1 == k2)
      = cells.find? (fun p => p.1 == k2) := by
  induction cells with
  | nil => rfl
  | cons c cs ih =>
    obtain ⟨ck, cv⟩ := c
    rw [List.map_cons]
    dsimp only
    by_cases hk1 : ck = k1
    · subst hk1
      rw [if_pos (by simp)]
      rw [List.find?_cons_of_neg _ (by simp [hne]),
        List.find?_cons_of_neg _ (by simp [hne])]
      exact ih
    · rw [if_neg (by simp [hk1])]
      by_cases hk2 : ck = k2
      · subst hk2
        rw [List.find?_cons_of_pos _ (by simp),
          List.find?_cons_of_pos _ (by simp)]
      · rw [List.find?_cons_of_neg _ (by simp [hk2]),
          List.find?_cons_of_neg _ (by simp [hk2])]
        exact ih

/-- Reading another shim cell after a write sees the value from before the
write. -/
theorem readCell_writeCell_ne (w : World) (k1 k2 v : Nat) (h : k1 ≠ k2) :
    readCell (writeCell w k1 v) k2 = readCell w k2 := by
  unfold readCell writeCell
  dsimp only
  rw [find?_key_write w.cells k1 k2 v h]

/-- Claim C9: the current-instance cell is per instance, not process
global.  Building two RuntimeInstance values gives them distinct private
shim-library copies, the cell of each copy holds the python library of its
own instance, and writing through the cell of one copy leaves the cell of
the other copy unchanged, so neither instance observes the binding of the
other. -/
theorem c9_cell_is_per_instance (w0 : World) (v1 v2 : Nat)
    (hw : ∀ p ∈ w0.cells, p.1 < w0.nextId) :
    ((mkPythonAPI w0).1).shimId ≠ ((mkPythonAPI (mkPythonAPI w0).2).1).shimId ∧
    readCell (mkPythonAPI (mkPythonAPI w0).2).2 ((mkPythonAPI w0).1).shimId
      = some (some ((mkPythonAPI w0).1).pythonId) ∧
    readCell (mkPythonAPI (mkPythonAPI w0).2).2
        ((mkPythonAPI (mkPythonAPI w0).2).1).shimId
      = some (some ((mkPythonAPI (mkPythonAPI w0).2).1).pythonId) ∧
    readCell (writeCell (mkPythonAPI (mkPythonAPI w0).2).2
          ((mkPythonAPI w0).1).shimId v1)
        ((mkPythonAPI (mkPythonAPI w0).2).1).shimId
      = readCell (mkPythonAPI (mkPythonAPI w0).2).2
          ((mkPythonAPI (mkPythonAPI w0).2).1).shimId ∧
    readCell (writeCell (mkPythonAPI (mkPythonAPI w0).2).2
          ((mkPythonAPI (mkPythonAPI w0).2).1).shimId v2)
        ((mkPythonAPI w0).1).shimId
      = readCell (mkPythonAPI (mkPythonAPI w0).2).2
          ((mkPythonAPI w0).1).shimId := by
  simp only [mkPythonAPI]
  refine ⟨by omega, ?_, ?_, ?_, ?_⟩
  · unfold readCell
    dsimp only
    rw [List.append_assoc,
      find?_key_append _ _ _ (fun p hp => Nat.ne_of_lt (hw p hp))]
    rw [List.cons_append, List.find?_cons_of_pos _ (by simp)]
    rfl
  · unfold readCell
    dsimp only
    rw [find?_key_append _ _ _ ?hne]
    case hne =>
      intro p hp
      rcases List.mem_append.mp hp with hp1 | hp2
      · have := hw p hp1
        omega
      · have : p = (w0.nextId, some (w0.nextId + 1)) := by
          simpa using hp2
        rw [this]
        dsimp only
        omega
    rw [List.find?_cons_of_pos _ (by simp)]
    rfl
  · exact readCell_writeCell_ne _ _ _ _ (by omega)
  · exact readCell_writeCell_ne _ _ _ _ (by omega)

/-- Claim C9 witness: from the empty process state, the two instances get
the distinct shim copies 0 and 3, each cell holds the python copy of its
own instance, and writes through either cell leave the other cell
unchanged. -/
theorem c9_witness :
    ((mkPythonAPI ⟨0, []⟩).1).shimId
      ≠ ((mkPythonAPI (mkPythonAPI ⟨0, []⟩).2).1).shimId ∧
    readCell (mkPythonAPI (mkPythonAPI ⟨0, []⟩).2).2
        ((mkPythonAPI ⟨0, []⟩).1).shimId
      = some (some ((mkPythonAPI ⟨0, []⟩).1).pythonId) ∧
    readCell (mkPythonAPI (mkPythonAPI ⟨0, []⟩).2).2
        ((mkPythonAPI (mkPythonAPI ⟨0, []⟩).2).1).shimId
      = some (some ((mkPythonAPI (mkPythonAPI ⟨0, []⟩).2).1).pythonId) ∧
    readCell (writeCell (mkPythonAPI (mkPythonAPI ⟨0, []⟩).2).2
          ((mkPythonAPI ⟨0, []⟩).1).shimId 9)
        ((mkPythonAPI (mkPythonAPI ⟨0, []⟩).2).1).shimId
      = readCell (mkPythonAPI (mkPythonAPI ⟨0, []⟩).2).2
          ((mkPythonAPI (mkPythonAPI ⟨0, []⟩).2).1).shimId ∧
    readCell (writeCell (mkPythonAPI (mkPythonAPI ⟨0, []⟩).2).2
          ((mkPythonAPI (mkPythonAPI ⟨0, []⟩).2).1).shimId 11)
        ((mkPythonAPI ⟨0, []⟩).1).shimId
      = readCell (mkPythonAPI (mkPythonAPI ⟨0, []⟩).2).2
          ((mkPythonAPI ⟨0, []⟩).1).shimId :=
  c9_cell_is_per_instance ⟨0, []⟩ 9 11 (by intro p hp; cases hp)

end CustomLoader
